import Mathlib

/-!
Formal model of the thermal-heatmap acquisition pipeline of `src/plot.py`
(class `RobustThermalHeatmap`).

The serial link is modelled at line granularity: each `readline()` call either
delivers a decoded, stripped line, raises (a `UnicodeDecodeError`, which is a
`ValueError`, or a `serial.SerialException`), or — when no data ever arrives —
times out and returns the empty string.  A `Transport` carries the bytes that
are already buffered when a call starts and the stream of lines that will
arrive afterwards; once both are exhausted every further `readline()` is a
timeout returning the empty line, forever.

Tokens are modelled by the outcome of Python's `float()` on them: a numeric
token carries its value (as a rational; no claim here depends on binary
floating-point rounding), a non-numeric token raises `ValueError`.  A line is
its marker-containment bit (`'Thermal data:' in line`; unaffected by
`.strip()`) together with its `.split()` token list.
-/

namespace ThermalModel

/-- Outcome of Python `float()` on one whitespace-separated token: a numeric
token carrying its parsed value, or a token on which `float()` raises
`ValueError`. -/
inductive Tok where
  | num (v : ℚ)
  | nonnum
deriving DecidableEq

/-- One decoded, stripped line as produced by `readline().decode().strip()`:
whether it contains the marker substring `'Thermal data:'`, and its
whitespace-split token list. -/
structure Line where
  containsMarker : Bool
  toks : List Tok
deriving DecidableEq

/-- The line a timed-out `readline()` yields: pyserial returns `b''` on
timeout, which decodes and strips to the empty string — it contains no marker
and splits into no tokens. -/
def emptyLine : Line := ⟨false, []⟩

/-- The marker line `"Thermal data:"` itself: it contains the marker substring
and `.split()` yields the two non-numeric tokens `"Thermal"` and `"data:"`. -/
def markerLine : Line := ⟨true, [.nonnum, .nonnum]⟩

/-- The two exception classes named by the `except (ValueError,
serial.SerialException)` clause of `read_thermal_data`; these are also the only
exception classes the body of an attempt can raise in this model
(`UnicodeDecodeError` is a subclass of `ValueError`). -/
inductive PyExc where
  | valueError
  | serialException
deriving DecidableEq

/-- What one `readline()` call yields once data is available: a decoded line,
or an exception (decode failure / serial fault) raised out of the call. -/
inductive ReadEvent where
  | line (l : Line)
  | raiseErr (e : PyExc)
deriving DecidableEq

/-- The serial connection: the input already buffered when we look at it, and
the stream of reads that the device will deliver afterwards.  Reads beyond the
end of `stream` are timeouts yielding `emptyLine`. -/
structure Transport where
  buffer : List ReadEvent
  stream : List ReadEvent
deriving DecidableEq

/-- `self.ser.reset_input_buffer()`: discard everything currently buffered;
data still to arrive is unaffected. -/
def reset_input_buffer (t : Transport) : Transport := ⟨[], t.stream⟩

/-- Outcome of the marker-search loop `while True: line = readline(); if
'Thermal data:' in line: break`.  A raised exception escapes the loop to the
attempt's `except` clause.  When the stream runs out the loop keeps reading
timed-out empty lines, which contain no marker, so it never exits: `diverge`. -/
inductive SearchOut where
  | found (rest : List ReadEvent)
  | raised (e : PyExc) (rest : List ReadEvent)
  | diverge
deriving DecidableEq

/-- The marker-search loop, reading from the (post-reset, hence buffer-empty)
stream. -/
def searchMarker : List ReadEvent → SearchOut
  | [] => .diverge
  | .line l :: s => if l.containsMarker then .found s else searchMarker s
  | .raiseErr e :: s => .raised e s

/-- The `for _ in range(8): data_lines.append(readline().decode().strip().split())`
loop, reading `n` lines.  Reads past the end of the stream are timeouts
yielding `emptyLine`.  An exception aborts the loop. -/
def readRows : Nat → List ReadEvent → Except (PyExc × List ReadEvent) (List Line × List ReadEvent)
  | 0, s => .ok ([], s)
  | n + 1, [] =>
    match readRows n [] with
    | .ok (ls, s2) => .ok (emptyLine :: ls, s2)
    | .error e => .error e
  | n + 1, .line l :: s =>
    match readRows n s with
    | .ok (ls, s2) => .ok (l :: ls, s2)
    | .error e => .error e
  | _ + 1, .raiseErr e :: s => .error (e, s)

/-- `[float(val) for val in line]` on one line's token list: all parsed values,
or `none` when some token raises `ValueError`. -/
def floatVals : List Tok → Option (List ℚ)
  | [] => some []
  | .num v :: ts =>
    match floatVals ts with
    | some vs => some (v :: vs)
    | none => none
  | .nonnum :: _ => none

/-- `pixels = [float(val) for line in data_lines for val in line]`: the
flattened numeric values of all lines, or `none` when any token raises. -/
def pixelsOf : List Line → Option (List ℚ)
  | [] => some []
  | l :: ls =>
    match floatVals l.toks, pixelsOf ls with
    | some vs, some ws => some (vs ++ ws)
    | _, _ => none

/-- `np.zeros((n, m))` as a row-major list of rows. -/
def zeros (n m : Nat) : List (List ℚ) := List.replicate n (List.replicate m 0)

/-- `np.array(pixels).reshape(8, 8)`: the 64 values cut into 8 rows of 8,
row-major. -/
def reshape8 (vs : List ℚ) : List (List ℚ) :=
  (List.range 8).map (fun i => (vs.drop (8 * i)).take 8)

/-- Outcome of the body of one attempt of `read_thermal_data` (the `try`
block): an early `return` with a frame, a fall-through when the pixel count is
not 64, a raised exception, or divergence inside the marker-search loop. -/
inductive BodyOut where
  | success (f : List (List ℚ)) (t : Transport)
  | fallthrough (t : Transport)
  | raised (e : PyExc) (t : Transport)
  | diverge
deriving DecidableEq

/-- The body of one attempt: reset the input buffer, search for the marker,
read 8 lines, parse all tokens, and return the reshaped frame when exactly 64
values were parsed.  After the reset the buffer is empty, so every read inside
the attempt draws directly from the arriving stream. -/
def attemptBody (t : Transport) : BodyOut :=
  match searchMarker (reset_input_buffer t).stream with
  | .diverge => .diverge
  | .raised e s1 => .raised e ⟨[], s1⟩
  | .found s1 =>
    match readRows 8 s1 with
    | .error (e, s2) => .raised e ⟨[], s2⟩
    | .ok (ls, s2) =>
      match pixelsOf ls with
      | none => .raised .valueError ⟨[], s2⟩
      | some vs =>
        if vs.length = 64 then .success (reshape8 vs) ⟨[], s2⟩
        else .fallthrough ⟨[], s2⟩

/-- Whether the `except (ValueError, serial.SerialException)` clause matches a
raised exception. -/
def isCaught : PyExc → Bool
  | .valueError => true
  | .serialException => true

/-- How a call to `read_thermal_data` ends: a normal `return` with a frame, an
exception escaping to the caller, or no return at all (the marker-search loop
spins on timed-out empty reads forever). -/
inductive ReadResult where
  | ret (f : List (List ℚ)) (t : Transport)
  | raises (e : PyExc) (t : Transport)
  | diverge
deriving DecidableEq

/-- The `for attempt in range(max_attempts)` loop with `n` attempts left: run
the attempt body; a caught exception or a wrong pixel count consumes one
attempt; when the budget is exhausted, return `np.zeros((8, 8))`. -/
def readLoop : Nat → Transport → ReadResult
  | 0, t => .ret (zeros 8 8) t
  | n + 1, t =>
    match attemptBody t with
    | .success f t2 => .ret f t2
    | .fallthrough t2 => readLoop n t2
    | .raised e t2 => if isCaught e then readLoop n t2 else .raises e t2
    | .diverge => .diverge

/-- `max_attempts = 10`. -/
def max_attempts : Nat := 10

/-- `RobustThermalHeatmap.read_thermal_data` (the spec's `next_frame()`). -/
def read_thermal_data (t : Transport) : ReadResult := readLoop max_attempts t

/-- Per-attempt protocol tag, recording how each attempt of one
`read_thermal_data` call ended (spec 4.1: the `SUCCESS` / `RETRY` outcomes of
the SEARCHING_MARKER → READING_ROWS → VALIDATING machine). -/
inductive AttemptTag where
  | gotFrame
  | retryBadCount
  | retryCaught (e : PyExc)
  | escaped (e : PyExc)
  | hang
deriving DecidableEq

/-- The sequence of per-attempt outcomes traversed by `readLoop`. -/
def readTrace : Nat → Transport → List AttemptTag
  | 0, _ => []
  | n + 1, t =>
    match attemptBody t with
    | .success _ _ => [.gotFrame]
    | .fallthrough t2 => .retryBadCount :: readTrace n t2
    | .raised e t2 =>
      if isCaught e then .retryCaught e :: readTrace n t2 else [.escaped e]
    | .diverge => [.hang]

/-- A payload line of Scenario A: `"1 2 3 4 5 6 7 8"`. -/
def row18 : Line :=
  ⟨false, [.num 1, .num 2, .num 3, .num 4, .num 5, .num 6, .num 7, .num 8]⟩

/-- Reading exactly as many rows as a run of plain lines delivers consumes the
run and returns its lines. -/
lemma readRows_lines (ls : List Line) (rest : List ReadEvent) :
    readRows ls.length (ls.map ReadEvent.line ++ rest) = .ok (ls, rest) := by
  induction ls with
  | nil => rfl
  | cons l ls ih => simp [readRows, ih]

/-- The marker search skips any run of lines that do not contain the marker. -/
lemma searchMarker_skip (ps : List Line) (h : ∀ l ∈ ps, l.containsMarker = false)
    (s : List ReadEvent) :
    searchMarker (ps.map ReadEvent.line ++ s) = searchMarker s := by
  induction ps with
  | nil => rfl
  | cons p ps ih =>
    have hp : p.containsMarker = false := h p (by simp)
    simp [searchMarker, hp, ih (fun l hl => h l (by simp [hl]))]

/-- A token list containing a non-numeric token fails float conversion. -/
lemma floatVals_none_of_nonnum {ts : List Tok} (h : Tok.nonnum ∈ ts) :
    floatVals ts = none := by
  induction ts with
  | nil => cases h
  | cons t ts ih =>
    cases t with
    | num v =>
      have : Tok.nonnum ∈ ts := by
        rcases List.mem_cons.mp h with h1 | h1
        · cases h1
        · exact h1
      simp [floatVals, ih this]
    | nonnum => rfl

/-- If some line of the payload fails float conversion, the whole pixel
comprehension raises. -/
lemma pixelsOf_none_of_mem {ls : List Line} {l : Line} (hl : l ∈ ls)
    (h : floatVals l.toks = none) : pixelsOf ls = none := by
  induction ls with
  | nil => cases hl
  | cons x xs ih =>
    rcases List.mem_cons.mp hl with h1 | h1
    · subst h1; simp [pixelsOf, h]
    · cases hx : floatVals x.toks with
      | none => simp [pixelsOf, hx]
      | some vs => simp [pixelsOf, hx, ih h1]

/-- Core shape of one attempt on a stream that opens with a marker line and
then delivers 8 plain lines: the attempt parses exactly those 8 lines and its
outcome is decided by the pixel comprehension and the 64-count check. -/
lemma attemptBody_frame (buf : List ReadEvent) (m : Line) (ls : List Line)
    (rest : List ReadEvent) (hm : m.containsMarker = true) (h8 : ls.length = 8) :
    attemptBody ⟨buf, ReadEvent.line m :: ls.map ReadEvent.line ++ rest⟩ =
      match pixelsOf ls with
      | none => .raised .valueError ⟨[], rest⟩
      | some vs =>
        if vs.length = 64 then .success (reshape8 vs) ⟨[], rest⟩
        else .fallthrough ⟨[], rest⟩ := by
  have hrows := readRows_lines ls rest
  rw [h8] at hrows
  simp only [attemptBody, reset_input_buffer, searchMarker, hm, if_true,
    List.append_eq, hrows]

/-- A successful attempt returns its frame at once. -/
lemma readLoop_succ_success {t : Transport} {f : List (List ℚ)} {t2 : Transport}
    (h : attemptBody t = .success f t2) (n : Nat) :
    readLoop (n + 1) t = .ret f t2 := by
  simp [readLoop, h]

/-- A fall-through (pixel count not 64) consumes one attempt. -/
lemma readLoop_succ_fallthrough {t t2 : Transport}
    (h : attemptBody t = .fallthrough t2) (n : Nat) :
    readLoop (n + 1) t = readLoop n t2 := by
  simp [readLoop, h]

/-- A raised `ValueError` or `SerialException` is caught and consumes one
attempt. -/
lemma readLoop_succ_caught {t : Transport} {e : PyExc} {t2 : Transport}
    (h : attemptBody t = .raised e t2) (n : Nat) :
    readLoop (n + 1) t = readLoop n t2 := by
  cases e <;> simp [readLoop, h, isCaught]

/-- A diverging attempt makes the whole call diverge. -/
lemma readLoop_succ_diverge {t : Transport} (h : attemptBody t = .diverge) (n : Nat) :
    readLoop (n + 1) t = .diverge := by
  simp [readLoop, h]

/-- Because every attempt starts with `reset_input_buffer()`, the attempt body
never looks at the initial buffer. -/
lemma attemptBody_buffer (b s : List ReadEvent) :
    attemptBody ⟨b, s⟩ = attemptBody ⟨[], s⟩ := rfl

/-- The whole retry loop is insensitive to the initially buffered input. -/
lemma readLoop_buffer (n : Nat) (b s : List ReadEvent) :
    readLoop (n + 1) ⟨b, s⟩ = readLoop (n + 1) ⟨[], s⟩ := rfl

/-- `read_thermal_data` is insensitive to the initially buffered input. -/
lemma read_thermal_data_buffer (b s : List ReadEvent) :
    read_thermal_data ⟨b, s⟩ = read_thermal_data ⟨[], s⟩ := rfl

/-- The attempt trace is insensitive to the initially buffered input. -/
lemma readTrace_buffer (n : Nat) (b s : List ReadEvent) :
    readTrace (n + 1) ⟨b, s⟩ = readTrace (n + 1) ⟨[], s⟩ := rfl

/-- Lines without the marker in front of the stream are skipped by the marker
search and change nothing about the attempt. -/
lemma attemptBody_skip (buf : List ReadEvent) (ps : List Line)
    (hps : ∀ l ∈ ps, l.containsMarker = false) (s : List ReadEvent) :
    attemptBody ⟨buf, ps.map ReadEvent.line ++ s⟩ = attemptBody ⟨[], s⟩ := by
  simp only [attemptBody, reset_input_buffer]
  rw [searchMarker_skip ps hps s]

/-- Whether a `read_thermal_data` outcome is an exception escaping to the
caller. -/
def raisesToCaller : ReadResult → Bool
  | .raises _ _ => true
  | _ => false

/-- No iteration count of the retry loop can let an exception escape: the only
exceptions the body raises are `ValueError` and `serial.SerialException`, and
the `except` clause catches exactly these. -/
lemma readLoop_never_raises : ∀ (n : Nat) (t : Transport),
    raisesToCaller (readLoop n t) = false := by
  intro n
  induction n with
  | zero => intro t; rfl
  | succ n ih =>
    intro t
    cases h : attemptBody t with
    | success f t2 => rw [readLoop_succ_success h]; rfl
    | fallthrough t2 => rw [readLoop_succ_fallthrough h]; exact ih t2
    | raised e t2 => rw [readLoop_succ_caught h]; exact ih t2
    | diverge => rw [readLoop_succ_diverge h]; rfl

/-- Concatenation of rows, `thermal_data.ravel()` on a row-major grid. -/
def ravel : List (List ℚ) → List ℚ
  | [] => []
  | r :: rs => r ++ ravel rs

/-- The 64 values parsed in Scenario A: eight rows of `1 2 3 4 5 6 7 8`. -/
def vals64 : List ℚ := ravel (List.replicate 8 [1, 2, 3, 4, 5, 6, 7, 8])

/-- A payload line `"1"` with a single numeric token. -/
def oneLine : Line := ⟨false, [.num 1]⟩

/-- C1: the claim says that on a stream never containing the marker each
timed-out read counts as a failed attempt, and `read_thermal_data` returns the
all-zero 8×8 frame after `max_attempts` such attempts.  The code does
otherwise: a timed-out `readline()` returns the empty string, which raises no
exception and contains no marker, so the `while True` marker-search loop spins
forever, no attempt is ever consumed, and the call never returns.  Evaluated
here both on the stream with no data at all (every read times out) and on a
stream of 40 non-marker empty lines. -/
theorem C1_no_marker_never_returns :
    read_thermal_data ⟨[], []⟩ = .diverge ∧
    read_thermal_data ⟨[], List.replicate 40 (.line emptyLine)⟩ = .diverge := by
  constructor
  · rfl
  · decide

/-- C2: `read_thermal_data` never lets an exception escape to its caller: the
only exceptions an attempt can raise are `ValueError` (including decode
errors and non-numeric tokens) and `serial.SerialException`, and the
`except (ValueError, serial.SerialException)` clause catches exactly these,
driving a retry; after the budget is gone the loop returns the all-zero
fallback. -/
theorem C2_never_raises (t : Transport) :
    raisesToCaller (read_thermal_data t) = false :=
  readLoop_never_raises max_attempts t

/-- C3: a stream opening with a marker line followed by 8 lines whose numeric
tokens total exactly 64 makes `read_thermal_data` return those 64 parsed
values as an 8×8 row-major grid, consuming exactly that prefix. -/
theorem C3_well_formed_frame (buf : List ReadEvent) (m : Line) (ls : List Line)
    (rest : List ReadEvent) (vs : List ℚ)
    (hm : m.containsMarker = true) (h8 : ls.length = 8)
    (hp : pixelsOf ls = some vs) (h64 : vs.length = 64) :
    read_thermal_data ⟨buf, ReadEvent.line m :: ls.map ReadEvent.line ++ rest⟩
      = .ret (reshape8 vs) ⟨[], rest⟩ := by
  have hb : attemptBody ⟨[], ReadEvent.line m :: ls.map ReadEvent.line ++ rest⟩
      = .success (reshape8 vs) ⟨[], rest⟩ := by
    rw [attemptBody_frame [] m ls rest hm h8, hp]
    simp [h64]
  rw [read_thermal_data_buffer]
  exact readLoop_succ_success hb 9

/-- Witness for C3, instantiated at Scenario A: marker line, then 8 lines each
`"1 2 3 4 5 6 7 8"`; the returned grid has every row equal to
`[1, 2, 3, 4, 5, 6, 7, 8]`. -/
theorem C3_well_formed_frame_witness :
    (markerLine.containsMarker = true ∧ (List.replicate 8 row18).length = 8 ∧
        pixelsOf (List.replicate 8 row18) = some vals64 ∧ vals64.length = 64) ∧
      read_thermal_data
          ⟨[], ReadEvent.line markerLine ::
            (List.replicate 8 row18).map ReadEvent.line ++ []⟩
        = .ret (reshape8 vals64) ⟨[], []⟩ ∧
      reshape8 vals64 = List.replicate 8 [1, 2, 3, 4, 5, 6, 7, 8] :=
  ⟨⟨rfl, rfl, by decide, by decide⟩,
    C3_well_formed_frame [] markerLine (List.replicate 8 row18) [] vals64
      rfl rfl (by decide) (by decide),
    by decide⟩

/-- A run of framed segments on the wire: each segment is a marker line
followed by its payload lines. -/
def segStream : List (Line × List Line) → List ReadEvent
  | [] => []
  | (m, body) :: rest => ReadEvent.line m :: body.map ReadEvent.line ++ segStream rest

/-- A segment whose marker is well formed and whose 8 payload lines carry only
numeric tokens, but in a total other than 64. -/
def badSeg (p : Line × List Line) : Prop :=
  p.1.containsMarker = true ∧ p.2.length = 8 ∧
    ∃ vs, pixelsOf p.2 = some vs ∧ vs.length ≠ 64

/-- Each wrong-total segment consumes exactly one attempt; a run of as many
such segments as there are attempts left exhausts the loop, which then returns
the all-zero frame. -/
lemma readLoop_badSegs (segs : List (Line × List Line)) :
    ∀ rest : List ReadEvent, (∀ p ∈ segs, badSeg p) →
      readLoop segs.length ⟨[], segStream segs ++ rest⟩ = .ret (zeros 8 8) ⟨[], rest⟩ := by
  induction segs with
  | nil => intro rest _; rfl
  | cons p segs ih =>
    intro rest hbad
    obtain ⟨m, body⟩ := p
    obtain ⟨hm, h8, vs, hp, h64⟩ := hbad (m, body) (by simp)
    have hshape : segStream ((m, body) :: segs) ++ rest
        = ReadEvent.line m :: body.map ReadEvent.line ++ (segStream segs ++ rest) := by
      simp [segStream]
    have hb : attemptBody
        ⟨[], ReadEvent.line m :: body.map ReadEvent.line ++ (segStream segs ++ rest)⟩
        = .fallthrough ⟨[], segStream segs ++ rest⟩ := by
      rw [attemptBody_frame [] m body (segStream segs ++ rest) hm h8, hp]
      simp [h64]
    rw [List.length_cons, hshape, readLoop_succ_fallthrough hb]
    exact ih rest (fun q hq => hbad q (by simp [hq]))

/-- C7: any attempt whose 8 payload lines carry numeric tokens totalling
anything other than 64 is discarded without returning, and a fresh marker
search starts on the rest of the stream; after `max_attempts` consecutive such
attempts the call returns the all-zero 8×8 frame. -/
theorem C7_wrong_total_retry_then_fallback (buf : List ReadEvent)
    (segs : List (Line × List Line)) (rest : List ReadEvent)
    (hn : segs.length = max_attempts) (hbad : ∀ p ∈ segs, badSeg p) :
    read_thermal_data ⟨buf, segStream segs ++ rest⟩ = .ret (zeros 8 8) ⟨[], rest⟩ := by
  rw [read_thermal_data_buffer]
  show readLoop max_attempts ⟨[], segStream segs ++ rest⟩ = _
  rw [← hn]
  exact readLoop_badSegs segs rest hbad

/-- Witness for C7: ten frames of 8 one-token lines (8 values each, not 64)
exhaust the budget and produce the fallback. -/
theorem C7_wrong_total_retry_then_fallback_witness :
    ((List.replicate 10 (markerLine, List.replicate 8 oneLine)).length = max_attempts ∧
        ∀ p ∈ List.replicate 10 (markerLine, List.replicate 8 oneLine), badSeg p) ∧
      read_thermal_data
          ⟨[], segStream (List.replicate 10 (markerLine, List.replicate 8 oneLine)) ++ []⟩
        = .ret (zeros 8 8) ⟨[], []⟩ := by
  have hbad : ∀ p ∈ List.replicate 10 (markerLine, List.replicate 8 oneLine), badSeg p := by
    intro p hp
    rw [List.eq_of_mem_replicate hp]
    exact ⟨rfl, by decide, List.replicate 8 1, by decide, by decide⟩
  exact ⟨⟨rfl, hbad⟩,
    C7_wrong_total_retry_then_fallback []
      (List.replicate 10 (markerLine, List.replicate 8 oneLine)) [] rfl hbad⟩

/-- The concrete Scenario B stream of C8: a marker, 7 one-token data lines,
a second marker, then a well-formed 8-line payload of rows
`1 2 3 4 5 6 7 8` — and nothing further. -/
def scenarioB : List ReadEvent :=
  ReadEvent.line markerLine :: List.replicate 7 (ReadEvent.line oneLine) ++
    (ReadEvent.line markerLine :: List.replicate 8 (ReadEvent.line row18))

/-- Counterexample to C8: on the Scenario B stream the reader does not
resynchronize on the second marker and does not return the frame parsed after
it.  The second marker line is consumed as the eighth payload line of the
first attempt (its non-numeric tokens raise the `ValueError` that aborts the
attempt), so the retry searches for a marker only in the well-formed payload
lines, finds none, and the call never returns. -/
theorem C8_counterexample : read_thermal_data ⟨[], scenarioB⟩ = .diverge := by
  decide

/-- C8 (amended): with a marker, 7 data lines and a second marker, the first
attempt is aborted by the `ValueError` on the second marker line's non-numeric
tokens, but that second marker has already been consumed as payload: the next
attempt searches for a marker strictly after it, skipping the well-formed
payload that follows it, and only resynchronizes on a third marker appearing
later in the stream, returning the frame parsed after that third marker. -/
theorem C8_resync_skips_second_marker (buf : List ReadEvent) (m m2 m3 : Line)
    (ds ps qs : List Line) (rest : List ReadEvent) (qv : List ℚ)
    (hm : m.containsMarker = true) (_hm2 : m2.containsMarker = true)
    (hm2tok : Tok.nonnum ∈ m2.toks) (hm3 : m3.containsMarker = true)
    (hd : ds.length = 7) (hps : ∀ l ∈ ps, l.containsMarker = false)
    (hq : qs.length = 8) (hqv : pixelsOf qs = some qv) (h64 : qv.length = 64) :
    read_thermal_data
        ⟨buf, ReadEvent.line m :: ds.map ReadEvent.line ++
          (ReadEvent.line m2 :: (ps.map ReadEvent.line ++
            (ReadEvent.line m3 :: qs.map ReadEvent.line ++ rest)))⟩
      = .ret (reshape8 qv) ⟨[], rest⟩ := by
  have hshape : ReadEvent.line m :: ds.map ReadEvent.line ++
      (ReadEvent.line m2 :: (ps.map ReadEvent.line ++
        (ReadEvent.line m3 :: qs.map ReadEvent.line ++ rest)))
      = ReadEvent.line m :: (ds ++ [m2]).map ReadEvent.line ++
        (ps.map ReadEvent.line ++ (ReadEvent.line m3 :: qs.map ReadEvent.line ++ rest)) := by
    simp
  have hpix : pixelsOf (ds ++ [m2]) = none :=
    pixelsOf_none_of_mem (l := m2) (by simp) (floatVals_none_of_nonnum hm2tok)
  have hb1 : attemptBody
      ⟨[], ReadEvent.line m :: (ds ++ [m2]).map ReadEvent.line ++
        (ps.map ReadEvent.line ++ (ReadEvent.line m3 :: qs.map ReadEvent.line ++ rest))⟩
      = .raised .valueError
          ⟨[], ps.map ReadEvent.line ++ (ReadEvent.line m3 :: qs.map ReadEvent.line ++ rest)⟩ := by
    rw [attemptBody_frame [] m (ds ++ [m2]) _ hm (by simp [hd]), hpix]
  have hb2 : attemptBody
      ⟨[], ps.map ReadEvent.line ++ (ReadEvent.line m3 :: qs.map ReadEvent.line ++ rest)⟩
      = .success (reshape8 qv) ⟨[], rest⟩ := by
    rw [attemptBody_skip [] ps hps _,
      attemptBody_frame [] m3 qs rest hm3 hq, hqv]
    simp [h64]
  rw [read_thermal_data_buffer]
  show readLoop max_attempts _ = _
  rw [show max_attempts = 9 + 1 from rfl, hshape, readLoop_succ_caught hb1,
    show (9 : ℕ) = 8 + 1 from rfl, readLoop_succ_success hb2]

/-- Witness for the amended C8: with a third marker and a payload of rows
`1 2 3 4 5 6 7 8` appended after the skipped well-formed payload, the call
returns the frame parsed after the third marker. -/
theorem C8_resync_skips_second_marker_witness :
    (markerLine.containsMarker = true ∧ Tok.nonnum ∈ markerLine.toks ∧
        (List.replicate 7 oneLine).length = 7 ∧
        (∀ l ∈ List.replicate 8 row18, l.containsMarker = false) ∧
        (List.replicate 8 row18).length = 8 ∧
        pixelsOf (List.replicate 8 row18) = some vals64 ∧ vals64.length = 64) ∧
      read_thermal_data
          ⟨[], ReadEvent.line markerLine :: (List.replicate 7 oneLine).map ReadEvent.line ++
            (ReadEvent.line markerLine :: ((List.replicate 8 row18).map ReadEvent.line ++
              (ReadEvent.line markerLine :: (List.replicate 8 row18).map ReadEvent.line ++ [])))⟩
        = .ret (reshape8 vals64) ⟨[], []⟩ :=
  ⟨⟨rfl, by decide, rfl, by decide, rfl, by decide, by decide⟩,
    C8_resync_skips_second_marker [] markerLine markerLine markerLine
      (List.replicate 7 oneLine) (List.replicate 8 row18) (List.replicate 8 row18)
      [] vals64 rfl rfl (by decide) rfl rfl (by decide) rfl (by decide) (by decide)⟩

/-- C9: acquisition is a deterministic function of the arriving byte stream:
two calls over identical streams traverse the same sequence of per-attempt
protocol outcomes and produce the same frame or fallback, whatever was
buffered beforehand. -/
theorem C9_deterministic (t1 t2 : Transport) (h : t1.stream = t2.stream) :
    readTrace max_attempts t1 = readTrace max_attempts t2 ∧
      read_thermal_data t1 = read_thermal_data t2 := by
  obtain ⟨b1, s1⟩ := t1
  obtain ⟨b2, s2⟩ := t2
  change s1 = s2 at h
  subst h
  exact ⟨rfl, rfl⟩

/-- Witness for C9: two transports with different buffered input but the same
arriving stream behave identically. -/
theorem C9_deterministic_witness :
    (Transport.mk [ReadEvent.line oneLine] [ReadEvent.line markerLine]).stream
        = (Transport.mk [] [ReadEvent.line markerLine]).stream ∧
      (readTrace max_attempts ⟨[ReadEvent.line oneLine], [ReadEvent.line markerLine]⟩
          = readTrace max_attempts ⟨[], [ReadEvent.line markerLine]⟩ ∧
        read_thermal_data ⟨[ReadEvent.line oneLine], [ReadEvent.line markerLine]⟩
          = read_thermal_data ⟨[], [ReadEvent.line markerLine]⟩) :=
  ⟨rfl, C9_deterministic _ _ rfl⟩

/-- C10: every attempt, the very first included, opens with
`self.ser.reset_input_buffer()`, so input buffered before the call never
reaches the parser: the result and the whole attempt trace agree with those of
a call that starts with an empty buffer. -/
theorem C10_initial_buffer_discarded (buf s : List ReadEvent) :
    read_thermal_data ⟨buf, s⟩ = read_thermal_data ⟨[], s⟩ ∧
      readTrace max_attempts ⟨buf, s⟩ = readTrace max_attempts ⟨[], s⟩ :=
  ⟨read_thermal_data_buffer buf s, readTrace_buffer 9 buf s⟩

/-!
Interpolation (`interpolate_thermal_data`, the spec's `upsample()`).

Modelled from the spec: the cubic scattered-data routine
`scipy.interpolate.griddata` is a third-party library whose code is not part
of this repository.  Spec 4.2 describes what `interpolate_thermal_data` asks
of it: "estimate a value at every target coordinate using cubic scattered-data
interpolation over the 64 source samples", the target coordinates being an
80×80 grid spanning the same `[0, 7]` square as the 8×8 source grid.  We model
the routine as an arbitrary scattered-data interpolation scheme: at each of
the 80×80 target coordinates it produces a weighted combination of the 64
flattened source samples, with geometry-determined weights that sum to 1 —
the defining property of an interpolation scheme that is exact on constant
fields, which spec 4.2 requires of it — and it may also fail on some inputs,
which the `except` clause of `interpolate_thermal_data` turns into the
all-zero 80×80 fallback.
-/

/-- Modelled from the spec: a cubic scattered-data interpolation scheme in the
sense of spec 4.2 (missing from src/ because `scipy.interpolate.griddata` is
an external library).  `weight ti tj k` is the coefficient the scheme gives to
flattened source sample `k` at target coordinate `(ti, tj)`; the coefficients
of each target coordinate sum to 1.  `fails` tells on which inputs the routine
raises instead of interpolating. -/
structure GriddataModel where
  weight : Nat → Nat → Nat → ℚ
  weight_sum : ∀ ti tj, ti < 80 → tj < 80 →
    ∑ k ∈ Finset.range 64, weight ti tj k = 1
  fails : List ℚ → Bool

/-- The `griddata((X.ravel(), Y.ravel()), thermal_data.ravel(), (Xi, Yi),
method='cubic')` call: `none` models a raised exception, otherwise the 80×80
grid of interpolated values. -/
def griddata (g : GriddataModel) (pixels : List ℚ) : Option (List (List ℚ)) :=
  if g.fails pixels then none
  else
    some ((List.range 80).map (fun ti => (List.range 80).map (fun tj =>
      ∑ k ∈ Finset.range 64, g.weight ti tj k * pixels.getD k 0)))

/-- `RobustThermalHeatmap.interpolate_thermal_data` (the spec's `upsample()`):
interpolate the 8×8 grid to 80×80, or return `np.zeros((80, 80))` when the
interpolation routine raises. -/
def interpolate_thermal_data (g : GriddataModel) (thermal_data : List (List ℚ)) :
    List (List ℚ) :=
  match griddata g (ravel thermal_data) with
  | some r => r
  | none => zeros 80 80

/-- The 8×8 grid whose every entry is `k`. -/
def const8 (k : ℚ) : List (List ℚ) := List.replicate 8 (List.replicate 8 k)

/-- The 80×80 grid whose every entry is `k`. -/
def const80 (k : ℚ) : List (List ℚ) := List.replicate 80 (List.replicate 80 k)

/-- C5: for every interpolation scheme and every 8×8 input,
`interpolate_thermal_data` returns a grid of exactly 80 rows of 80 entries,
on the normal path and on the all-zero fallback path alike. -/
theorem C5_output_always_80x80 (g : GriddataModel) (d : List (List ℚ))
    (_h : d.length = 8 ∧ ∀ r ∈ d, r.length = 8) :
    (interpolate_thermal_data g d).length = 80 ∧
      ∀ row ∈ interpolate_thermal_data g d, row.length = 80 := by
  unfold interpolate_thermal_data griddata
  by_cases hf : g.fails (ravel d)
  · simp only [hf, if_true]
    constructor
    · simp [zeros]
    · intro row hrow
      rw [List.eq_of_mem_replicate hrow]
      simp
  · simp only [hf, if_false]
    constructor
    · simp
    · intro row hrow
      obtain ⟨ti, _, hrow⟩ := List.mem_map.mp hrow
      rw [← hrow]
      simp

/-- Witness for C5: the scheme that copies sample 0 and never fails, applied
to the all-zero 8×8 grid. -/
def g0 : GriddataModel where
  weight := fun _ _ k => if k = 0 then 1 else 0
  weight_sum := by
    intro ti tj _ _
    show ∑ k ∈ Finset.range 64, (if k = 0 then (1 : ℚ) else 0) = 1
    simp
  fails := fun _ => false

theorem C5_output_always_80x80_witness :
    ((const8 0).length = 8 ∧ ∀ r ∈ const8 0, r.length = 8) ∧
      (interpolate_thermal_data g0 (const8 0)).length = 80 ∧
        ∀ row ∈ interpolate_thermal_data g0 (const8 0), row.length = 80 :=
  ⟨by decide, C5_output_always_80x80 g0 (const8 0) (by decide)⟩

/-- Entries of a replicated list read back as the replicated value. -/
lemma getD_replicate (n j : Nat) (h : j < n) (a d : ℚ) :
    (List.replicate n a).getD j d = a := by
  induction n generalizing j with
  | zero => cases h
  | succ n ih =>
    cases j with
    | zero => rfl
    | succ j => exact ih j (Nat.lt_of_succ_lt_succ h)

/-- C6: on the constant 8×8 grid of value `k`, any interpolation scheme in the
model returns the constant 80×80 grid of value `k`, provided the routine does
not fail on it (with `scipy.interpolate.griddata` on the regular 8×8 sample
set the failure branch is not taken). -/
theorem C6_constant_preserved (g : GriddataModel) (k : ℚ)
    (hf : g.fails (ravel (const8 k)) = false) :
    interpolate_thermal_data g (const8 k) = const80 k := by
  have hr : ravel (const8 k) = List.replicate 64 k := by
    simp only [const8]
    rfl
  unfold interpolate_thermal_data griddata
  rw [hf]
  simp only [Bool.false_eq_true, if_false]
  unfold const80
  apply List.eq_replicate_of_mem
  intro row hrow
  obtain ⟨ti, hti, hrow⟩ := List.mem_map.mp hrow
  rw [← hrow]
  apply List.eq_replicate_of_mem
  intro x hx
  obtain ⟨tj, htj, hx⟩ := List.mem_map.mp hx
  rw [← hx, hr]
  have hmap : ∑ j ∈ Finset.range 64, g.weight ti tj j * (List.replicate 64 k).getD j 0
      = ∑ j ∈ Finset.range 64, g.weight ti tj j * k :=
    Finset.sum_congr rfl
      (fun j hj => by rw [getD_replicate 64 j (Finset.mem_range.mp hj) k 0])
  rw [hmap, ← Finset.sum_mul,
    g.weight_sum ti tj (List.mem_range.mp hti) (List.mem_range.mp htj), one_mul]

/-- Witness for C6: the sample-copying scheme on the constant grid of value 5
yields the constant 80×80 grid of value 5. -/
theorem C6_constant_preserved_witness :
    g0.fails (ravel (const8 5)) = false ∧
      interpolate_thermal_data g0 (const8 5) = const80 5 :=
  ⟨rfl, C6_constant_preserved g0 5 rfl⟩

/-!
Scheduler (`RobustThermalHeatmap.update` driven by `FuncAnimation` in
`start_visualization`).

`start_visualization` builds `FuncAnimation(self.fig, self.update,
frames=num_frames, interval=1000, blit=True)`: the scheduler calls `update`
once per tick and, because `blit=True`, redraws exactly the artists `update`
returns.  `update` wraps the whole tick body in `try/except Exception`; on any
error it returns `[]`, so that tick redraws nothing and the previously
rendered frame stays on screen.  The two `set_array` calls go to the Presenter
(matplotlib), an external collaborator, so whether either of them raises on a
given tick is a free parameter of the tick.
-/

/-- The two image artists and the data arrays their `set_array` calls hold. -/
structure Artists where
  rawData : List (List ℚ)
  interpData : List (List ℚ)
deriving DecidableEq

/-- What is currently rendered on screen for the two panels. -/
structure Screen where
  rawShown : List (List ℚ)
  interpShown : List (List ℚ)
deriving DecidableEq

/-- Names of the artists `update` can return for blitting. -/
inductive ArtistId where
  | original
  | interpolated
deriving DecidableEq

/-- Modelled from the spec: the Presenter is an external collaborator whose
rendering technology is out of scope, so whether each of a tick's two
`set_array` calls raises is a free parameter; a raising call leaves its artist
unchanged. -/
structure TickEnv where
  failRaw : Bool
  failInterp : Bool
deriving DecidableEq

/-- `RobustThermalHeatmap.update`: read a frame, push it into the original
heatmap, interpolate, push the result into the interpolated heatmap, and
return both artists; any exception is caught and `[]` is returned with
whatever artist state the tick had already committed.  `none` models the tick
never finishing because `read_thermal_data` never returns. -/
def update (g : GriddataModel) (env : TickEnv) (t : Transport) (a : Artists) :
    Option (List ArtistId × Transport × Artists) :=
  match read_thermal_data t with
  | .diverge => none
  | .raises _ t2 => some ([], t2, a)
  | .ret f t2 =>
    if env.failRaw then some ([], t2, a)
    else
      let a1 : Artists := ⟨f, a.interpData⟩
      let interp := interpolate_thermal_data g f
      if env.failInterp then some ([], t2, a1)
      else some ([.original, .interpolated], t2, ⟨f, interp⟩)

/-- Redraw one artist: copy its current data to the screen. -/
def blitOne (a : Artists) (s : Screen) : ArtistId → Screen
  | .original => ⟨a.rawData, s.interpShown⟩
  | .interpolated => ⟨s.rawShown, a.interpData⟩

/-- `blit=True` redraw of exactly the artists `update` returned. -/
def blit (arts : List ArtistId) (a : Artists) (s : Screen) : Screen :=
  arts.foldl (blitOne a) s

/-- `frames=num_frames` default in `start_visualization`. -/
def num_frames : Nat := 500

/-- The `FuncAnimation` tick loop: one `update` call per tick followed by the
blit of the returned artists; `none` when some tick never finishes. -/
def runTicks (g : GriddataModel) :
    List TickEnv → Transport → Artists → Screen → Option (Transport × Artists × Screen)
  | [], t, a, s => some (t, a, s)
  | env :: envs, t, a, s =>
    match update g env t a with
    | none => none
    | some (arts, t2, a2) => runTicks g envs t2 a2 (blit arts a2 s)

/-- C4: on any tick whose acquisition terminates, every error raised inside
the tick — here, a Presenter `set_array` call raising — is caught at the tick
boundary: `update` still returns (with an empty artist list), the blit of that
tick repaints nothing, so the screen keeps the previously rendered state, and
the scheduler goes on to run exactly the remaining ticks.  No single failing
tick terminates the run. -/
theorem C4_tick_failure_contained (g : GriddataModel) (env : TickEnv)
    (envs : List TickEnv) (t : Transport) (a : Artists) (s : Screen)
    (f : List (List ℚ)) (t2 : Transport)
    (hread : read_thermal_data t = .ret f t2) :
    ∃ arts a2, update g env t a = some (arts, t2, a2) ∧
      ((env.failRaw = true ∨ env.failInterp = true) → blit arts a2 s = s) ∧
      runTicks g (env :: envs) t a s = runTicks g envs t2 a2 (blit arts a2 s) := by
  cases hr : env.failRaw with
  | true =>
    have hu : update g env t a = some ([], t2, a) := by
      simp [update, hread, hr]
    exact ⟨[], a, hu, fun _ => rfl, by simp [runTicks, hu]⟩
  | false =>
    cases hi : env.failInterp with
    | true =>
      have hu : update g env t a = some ([], t2, ⟨f, a.interpData⟩) := by
        simp [update, hread, hr, hi]
      exact ⟨[], ⟨f, a.interpData⟩, hu, fun _ => rfl, by simp [runTicks, hu]⟩
    | false =>
      have hu : update g env t a
          = some ([.original, .interpolated], t2, ⟨f, interpolate_thermal_data g f⟩) := by
        simp [update, hread, hr, hi]
      refine ⟨[.original, .interpolated], ⟨f, interpolate_thermal_data g f⟩, hu, ?_, ?_⟩
      · intro h
        rcases h with h | h <;> cases h
      · simp [runTicks, hu]

/-- Witness for C4: a tick whose raw-channel `set_array` raises, on a stream
delivering one well-formed frame, updates nothing on screen and hands the run
over to the remaining (empty) tick list. -/
theorem C4_tick_failure_contained_witness :
    read_thermal_data ⟨[], ReadEvent.line markerLine :: List.replicate 8 (ReadEvent.line row18)⟩
        = .ret (List.replicate 8 [1, 2, 3, 4, 5, 6, 7, 8]) ⟨[], []⟩ ∧
      (∃ arts a2,
        update g0 ⟨true, false⟩
            ⟨[], ReadEvent.line markerLine :: List.replicate 8 (ReadEvent.line row18)⟩
            ⟨zeros 8 8, zeros 80 80⟩
          = some (arts, ⟨[], []⟩, a2) ∧
        ((⟨true, false⟩ : TickEnv).failRaw = true ∨
            (⟨true, false⟩ : TickEnv).failInterp = true →
          blit arts a2 ⟨zeros 8 8, zeros 80 80⟩ = ⟨zeros 8 8, zeros 80 80⟩) ∧
        runTicks g0 [⟨true, false⟩]
            ⟨[], ReadEvent.line markerLine :: List.replicate 8 (ReadEvent.line row18)⟩
            ⟨zeros 8 8, zeros 80 80⟩ ⟨zeros 8 8, zeros 80 80⟩
          = runTicks g0 [] ⟨[], []⟩ a2 (blit arts a2 ⟨zeros 8 8, zeros 80 80⟩)) :=
  ⟨by decide,
    C4_tick_failure_contained g0 ⟨true, false⟩ []
      ⟨[], ReadEvent.line markerLine :: List.replicate 8 (ReadEvent.line row18)⟩
      ⟨zeros 8 8, zeros 80 80⟩ ⟨zeros 8 8, zeros 80 80⟩
      (List.replicate 8 [1, 2, 3, 4, 5, 6, 7, 8]) ⟨[], []⟩ (by decide)⟩

end ThermalModel
